import Mathlib

/-!
Verification development for the kindra repository.

The subject is the agent orchestration workflow `codeAgentFunction` in
src/src/prompt.ts together with the credit helpers in src/src/lib/usage.ts.
External collaborators (the e2b sandbox, prisma, the rate limiter, the
LLM endpoints) are modelled as oracles: every fallible external call is a
field of an environment record deciding whether that call succeeds, and
with what payload.  The workflow itself is translated branch by branch
from the TypeScript source.
-/

namespace Kindra

/-! ## Agent state (prompt.ts, interface AgentState) -/

/-- `files` maps sandbox-relative paths to full file content; modelled as an
association list with unique keys maintained by insert-or-overwrite. -/
abbrev FileMap := List (String × String)

structure AgentState where
  summary : String
  files : FileMap
deriving DecidableEq, Repr

def keysOf (m : FileMap) : List String := m.map Prod.fst

/-- One assignment `updatedFiles[file.path] = file.content`: overwrite the
existing entry for the path, or append a new entry. -/
def setFile (m : FileMap) (p v : String) : FileMap :=
  if m.any (fun e => e.1 == p) then
    m.map (fun e => if e.1 == p then (p, v) else e)
  else
    m ++ [(p, v)]

/-- The `for (const file of files)` loop body of the createOrUpdateFiles
step, applied over the whole batch. -/
def mergeBatch (m : FileMap) (batch : List (String × String)) : FileMap :=
  batch.foldl (fun acc e => setFile acc e.1 e.2) m

/-! ## Tool handlers (prompt.ts, the three createTool blocks) -/

/-- The result object of `sandbox.commands.run`. -/
structure SandboxResult where
  stdout : String
  stderr : String
  exitCode : Int
deriving DecidableEq, Repr

/-- Oracle for one terminal invocation: either the sandbox command resolves
with a result object, or the awaited call throws with message `e` after the
stdout/stderr callbacks have accumulated `bufStdout`/`bufStderr`. -/
inductive TermOracle
  | ok (r : SandboxResult)
  | err (e bufStdout bufStderr : String)
deriving DecidableEq, Repr

/-- The terminal tool's step body: on success it returns `result.stdout`;
on an exception it returns the formatted failure string embedding the
exception text and both captured buffers. -/
def terminalHandler (cmd : String) (o : TermOracle) : String :=
  match o with
  | TermOracle.ok r => r.stdout
  | TermOracle.err e bo be =>
      "Command failed: " ++ e ++ " \nstdout: " ++ bo ++ "\nstderr: " ++ be

/-- The createOrUpdateFiles step body.  `updatedFiles` is
`network.state.data.files || {}` — the SAME object as the live state map,
mutated in place inside the loop.  `failAt = some k` models
`sandbox.files.write` throwing on the k-th entry of the batch (0-based):
entries before index k were written and already merged into the live map.
Returns the pair (state of network.state.data.files after the step body,
value returned by the step): the merged map on success, the error-tagged
string `"Error:" ++ e` on an exception. -/
def createOrUpdateFilesStep (prior : FileMap) (batch : List (String × String))
    (failAt : Option Nat) (e : String) : FileMap × (FileMap ⊕ String) :=
  match failAt with
  | none => (mergeBatch prior batch, Sum.inl (mergeBatch prior batch))
  | some k => (mergeBatch prior (batch.take k), Sum.inr ("Error:" ++ e))

/-- The full createOrUpdateFiles handler: run the step, then
`if (typeof newFiles === "object") network.state.data.files = newFiles`.
On the error branch the assignment is skipped, but the live map already
holds the in-place mutations performed before the exception. -/
def createOrUpdateFilesHandler (st : AgentState) (batch : List (String × String))
    (failAt : Option Nat) (e : String) : AgentState :=
  let r := createOrUpdateFilesStep st.files batch failAt e
  match r.2 with
  | Sum.inl m => { st with files := m }
  | Sum.inr _ => { st with files := r.1 }

/-- Oracle for one readFiles invocation: the contents read for the requested
paths, or the exception message. -/
inductive ReadOracle
  | ok (contents : List String)
  | err (e : String)
deriving DecidableEq, Repr

/-- Abstraction of `JSON.stringify(contents)` — the exact JSON escaping is
irrelevant to every claim; only the fact that the handler returns a string
and touches no state matters. -/
def serializeRead (l : List (String × String)) : String :=
  String.intercalate "," (l.map (fun pc => pc.1 ++ ":" ++ pc.2))

/-- The readFiles step body: reads each file and returns a serialized list,
or the error-tagged string on an exception.  It has no access to the
network state at all. -/
def readFilesHandler (paths : List String) (o : ReadOracle) : String :=
  match o with
  | ReadOracle.ok contents => serializeRead (paths.zip contents)
  | ReadOracle.err e => "Error:" ++ e

/-- One tool invocation, with its oracle. -/
inductive ToolCall
  | terminal (cmd : String) (oracle : TermOracle)
  | createOrUpdateFiles (batch : List (String × String)) (failAt : Option Nat) (e : String)
  | readFiles (paths : List String) (oracle : ReadOracle)
deriving DecidableEq, Repr

/-- Dispatch of one tool invocation against the shared agent state:
the new state and the value the handler returns to the agent (the
createOrUpdateFiles handler has no return statement, hence `none`). -/
def applyTool (st : AgentState) : ToolCall → AgentState × Option String
  | ToolCall.terminal cmd o => (st, some (terminalHandler cmd o))
  | ToolCall.createOrUpdateFiles batch failAt e =>
      (createOrUpdateFilesHandler st batch failAt e, none)
  | ToolCall.readFiles paths o => (st, some (readFilesHandler paths o))

/-! ## The agent loop (createNetwork with maxIter 15 and the router) -/

/-- `maxIter: 15` from the createNetwork call in prompt.ts. -/
def maxIterConfig : Nat := 15

/-- Modelled from the spec: the round-based driver of the agent network
lives in the external library, not under src/.  Per the spec, before each
round the router inspects `AgentState.summary` (`if (summary) return;
return codeAgent;` in src): a non-empty summary halts the loop, otherwise
the agent runs one more round, and a hard cap bounds the number of rounds.
`respond i st` is an arbitrary model of round `i` (the agent turn together
with its tool calls and the onResponse hook); `n` is the remaining round
budget.  Returns the final state and the number of rounds executed. -/
def runRounds (respond : Nat → AgentState → AgentState) :
    Nat → Nat → AgentState → AgentState × Nat
  | 0, _, st => (st, 0)
  | n + 1, i, st =>
      if st.summary == "" then
        let st2 := respond i st
        let r := runRounds respond n (i + 1) st2
        (r.1, r.2 + 1)
      else
        (st, 0)

/-- The network run with the source's configuration: round budget 15,
starting at round 0. -/
def networkRun (respond : Nat → AgentState → AgentState) (st : AgentState) :
    AgentState × Nat :=
  runRounds respond maxIterConfig 0 st

/-! ## The workflow (codeAgentFunction) -/

inductive MsgType
  | RESULT
  | ERROR
deriving DecidableEq, Repr

/-- A persisted Message row, reduced to the fields the claims inspect:
its type and its creation time (milliseconds). -/
structure Msg where
  type : MsgType
  time : Int
deriving DecidableEq, Repr

/-- Environment of one Run: every fallible external call of
codeAgentFunction is decided by a field (`true` = the awaited call
resolves), and the LLM payloads are given as data.  `runResult` is the
outcome of `network.run`: `none` models the loop throwing, `some (summary,
files)` the final agent state. -/
structure Env where
  getSandboxOk : Bool
  getMessagesOk : Bool
  runResult : Option (String × FileMap)
  titleOk : Bool
  responseOk : Bool
  getUrlOk : Bool
  saveSuccessOk : Bool
  saveErrorResultOk : Bool
  findFirstOk : Bool
  saveErrorMsgOk : Bool
  host : String
  titleText : String
  responseText : String
  errText : String
deriving DecidableEq, Repr

/-- The structured value the workflow returns at its public boundary. -/
inductive WfReturn
  | success (url title summary : String) (files : FileMap)
  | failure (message : String)
deriving DecidableEq, Repr

/-- Observable outcome of one Run: the Messages it persisted (appended to
the project's store), the refund attempts it made (one entry per
refundCredit call, holding the credited amount), and the value returned at
the boundary (`none` models the function itself throwing). -/
structure Outcome where
  newMsgs : List Msg
  refunds : List Nat
  ret : Option WfReturn
deriving DecidableEq, Repr

/-- `const GENERATION_COST = 1` in src/src/lib/usage.ts; each refundCredit
call rewards exactly this amount. -/
def GENERATION_COST : Nat := 1

/-- The dedup query of the save-error-message step: is there an ERROR
Message for the project with `createdAt >= now - 60000`? -/
def recentError (store : List Msg) (now : Int) : Bool :=
  store.any (fun m => m.type == MsgType.ERROR && decide (now - 60000 ≤ m.time))

/-- The outer catch block of codeAgentFunction: refund (errors swallowed
inside the step, so the attempt always counts), then the save-error-message
step: findFirst for a recent ERROR row (throwing if `findFirstOk` is
false), create an ERROR row only when none exists (throwing if
`saveErrorMsgOk` is false), then return `{error: true, message}`.  The
sandbox cleanup swallows its own errors and persists nothing. -/
def outerCatch (env : Env) (now : Int) (store : List Msg)
    (refundsSoFar : List Nat) : Outcome :=
  let refunds := refundsSoFar ++ [GENERATION_COST]
  if env.findFirstOk then
    if recentError store now then
      { newMsgs := [], refunds := refunds, ret := some (WfReturn.failure env.errText) }
    else if env.saveErrorMsgOk then
      { newMsgs := [Msg.mk MsgType.ERROR now], refunds := refunds,
        ret := some (WfReturn.failure env.errText) }
    else
      { newMsgs := [], refunds := refunds, ret := none }
  else
    { newMsgs := [], refunds := refunds, ret := none }

/-- The completion check after the loop:
`!result.state.data.summary || Object.keys(result.state.data.files || {}).length === 0`. -/
def isError (summary : String) (files : FileMap) : Bool :=
  (summary == "") || (files.length == 0)

/-- The workflow body, branch by branch from prompt.ts: provision the
sandbox, load history, run the network, classify, and either persist the
error result (after a refund) or generate title/response, resolve the
sandbox URL and persist the success result; any exception lands in the
outer catch. -/
def codeAgentFunction (env : Env) (now : Int) (store : List Msg) : Outcome :=
  if env.getSandboxOk then
    if env.getMessagesOk then
      match env.runResult with
      | none => outerCatch env now store []
      | some (summary, files) =>
        if isError summary files then
          if env.saveErrorResultOk then
            { newMsgs := [Msg.mk MsgType.ERROR now],
              refunds := [GENERATION_COST],
              ret := some (WfReturn.failure "Failed to generate code") }
          else
            outerCatch env now store [GENERATION_COST]
        else
          if env.titleOk then
            if env.responseOk then
              if env.getUrlOk then
                if env.saveSuccessOk then
                  { newMsgs := [Msg.mk MsgType.RESULT now],
                    refunds := [],
                    ret := some (WfReturn.success ("https://" ++ env.host)
                      env.titleText summary files) }
                else outerCatch env now store []
              else outerCatch env now store []
            else outerCatch env now store []
          else outerCatch env now store []
    else outerCatch env now store []
  else outerCatch env now store []

/-! ## Analysis helpers -/

def retSuccess : Option WfReturn → Bool
  | some (WfReturn.success _ _ _ _) => true
  | _ => false

def errorCount (l : List Msg) : Nat :=
  (l.filter (fun m => m.type == MsgType.ERROR)).length

/-- The control path a Run takes, as a function of its environment. -/
inductive Path
  | success (summary : String) (files : FileMap)
  | innerError
  | outerFromInner
  | outerDirect
deriving DecidableEq, Repr

/-- Which path the workflow takes: same branch structure as
codeAgentFunction. -/
def pathOf (env : Env) : Path :=
  if env.getSandboxOk then
    if env.getMessagesOk then
      match env.runResult with
      | none => Path.outerDirect
      | some (summary, files) =>
        if isError summary files then
          if env.saveErrorResultOk then Path.innerError else Path.outerFromInner
        else
          if env.titleOk then
            if env.responseOk then
              if env.getUrlOk then
                if env.saveSuccessOk then Path.success summary files
                else Path.outerDirect
              else Path.outerDirect
            else Path.outerDirect
          else Path.outerDirect
    else Path.outerDirect
  else Path.outerDirect

/-- The outcome determined by a path. -/
def runPath (env : Env) (now : Int) (store : List Msg) : Path → Outcome
  | Path.success summary files =>
      { newMsgs := [Msg.mk MsgType.RESULT now],
        refunds := [],
        ret := some (WfReturn.success ("https://" ++ env.host)
          env.titleText summary files) }
  | Path.innerError =>
      { newMsgs := [Msg.mk MsgType.ERROR now],
        refunds := [GENERATION_COST],
        ret := some (WfReturn.failure "Failed to generate code") }
  | Path.outerFromInner => outerCatch env now store [GENERATION_COST]
  | Path.outerDirect => outerCatch env now store []

/-- A Run whose fault is reported through the outer exception handler. -/
def reachesOuter (env : Env) : Bool :=
  match pathOf env with
  | Path.outerFromInner => true
  | Path.outerDirect => true
  | _ => false

/-! ## Concrete environments used by witnesses and counterexamples -/

/-- A Run on which every external call succeeds and the agent converges
with a summary and one file. -/
def envSuccess : Env :=
  { getSandboxOk := true, getMessagesOk := true,
    runResult := some ("<task_summary>Built a counter</task_summary>", [("app/page.tsx", "x")]),
    titleOk := true, responseOk := true, getUrlOk := true, saveSuccessOk := true,
    saveErrorResultOk := true, findFirstOk := true, saveErrorMsgOk := true,
    host := "h.e2b.dev", titleText := "Counter", responseText := "Here you go!",
    errText := "boom" }

/-- A Run whose agent loop throws; every other external call succeeds. -/
def envLoopThrows : Env :=
  { getSandboxOk := true, getMessagesOk := true, runResult := none,
    titleOk := true, responseOk := true, getUrlOk := true, saveSuccessOk := true,
    saveErrorResultOk := true, findFirstOk := true, saveErrorMsgOk := true,
    host := "h.e2b.dev", titleText := "Counter", responseText := "Here you go!",
    errText := "boom" }

/-- A Run whose agent loop ends with no summary and no files (the inner
completion-check failure); every external call succeeds. -/
def envInnerFail : Env :=
  { envLoopThrows with runResult := some ("", []) }

/-- Like `envInnerFail`, but the save-error-result insert throws, so the
failure escalates to the outer handler after the inner refund. -/
def envInnerSaveFails : Env :=
  { envInnerFail with saveErrorResultOk := false }

/-- A Run whose agent loop throws and whose outer handler dedup query also
throws. -/
def envOuterQueryFails : Env :=
  { envLoopThrows with findFirstOk := false }

/-! ## Structural lemmas -/

theorem codeAgentFunction_eq_runPath (env : Env) (now : Int) (store : List Msg) :
    codeAgentFunction env now store = runPath env now store (pathOf env) := by
  rcases env with ⟨gs, gm, rr, tOk, rOk, uOk, ssOk, serOk, ffOk, semOk, hostv, ttv, rtv, etv⟩
  rcases rr with _ | ⟨s, f⟩
  · simp only [codeAgentFunction, pathOf]
    split_ifs <;> rfl
  · simp only [codeAgentFunction, pathOf]
    split_ifs <;> rfl

theorem outerCatch_len (env : Env) (now : Int) (store : List Msg) (r : List Nat) :
    (outerCatch env now store r).newMsgs.length ≤ 1 := by
  unfold outerCatch
  split_ifs <;> simp

theorem outerCatch_newMsgs_nil (env : Env) (now : Int) (store : List Msg) (r : List Nat)
    (hre : recentError store now = true) :
    (outerCatch env now store r).newMsgs = [] := by
  unfold outerCatch
  split_ifs <;> simp_all

theorem outerCatch_types (env : Env) (now : Int) (store : List Msg) (r : List Nat) :
    ∀ m ∈ (outerCatch env now store r).newMsgs, m.type = MsgType.ERROR := by
  unfold outerCatch
  split_ifs <;> simp

theorem outerCatch_len_one (env : Env) (now : Int) (store : List Msg) (r : List Nat)
    (hf : env.findFirstOk = true) (hs : env.saveErrorMsgOk = true)
    (hre : recentError store now = false) :
    (outerCatch env now store r).newMsgs.length = 1 := by
  unfold outerCatch
  simp [hf, hs, hre]

theorem outerCatch_refunds (env : Env) (now : Int) (store : List Msg) (r : List Nat) :
    (outerCatch env now store r).refunds = r ++ [GENERATION_COST] := by
  unfold outerCatch
  split_ifs <;> rfl

theorem outerCatch_not_success (env : Env) (now : Int) (store : List Msg) (r : List Nat) :
    retSuccess (outerCatch env now store r).ret = false := by
  unfold outerCatch
  split_ifs <;> simp [retSuccess]

theorem outerCatch_no_success_payload (env : Env) (now : Int) (store : List Msg)
    (r : List Nat) (u t s : String) (f : FileMap) :
    (outerCatch env now store r).ret ≠ some (WfReturn.success u t s f) := by
  unfold outerCatch
  split_ifs <;> simp

theorem outerCatch_ret_isSome (env : Env) (now : Int) (store : List Msg) (r : List Nat)
    (hf : env.findFirstOk = true) (hs : env.saveErrorMsgOk = true) :
    (outerCatch env now store r).ret.isSome = true := by
  unfold outerCatch
  by_cases hre : recentError store now <;> simp [hf, hs, hre]

theorem pathOf_outerFromInner (env : Env) (hp : pathOf env = Path.outerFromInner) :
    env.saveErrorResultOk = false := by
  rcases env with ⟨gs, gm, rr, tOk, rOk, uOk, ssOk, serOk, ffOk, semOk, hostv, ttv, rtv, etv⟩
  rcases rr with _ | ⟨s, f⟩ <;> simp only [pathOf] at hp <;> split_ifs at hp <;> simp_all

theorem pathOf_success_runResult (env : Env) (s : String) (f : FileMap)
    (hp : pathOf env = Path.success s f) :
    env.runResult = some (s, f) ∧ isError s f = false := by
  rcases env with ⟨gs, gm, rr, tOk, rOk, uOk, ssOk, serOk, ffOk, semOk, hostv, ttv, rtv, etv⟩
  rcases rr with _ | ⟨s0, f0⟩ <;> simp only [pathOf] at hp <;> split_ifs at hp <;> simp_all

theorem recentError_of_mem (store : List Msg) (now t1 : Int)
    (hm : Msg.mk MsgType.ERROR t1 ∈ store) (ht : now - 60000 ≤ t1) :
    recentError store now = true := by
  unfold recentError
  exact List.any_eq_true.mpr ⟨Msg.mk MsgType.ERROR t1, hm, by simp [ht]⟩

theorem mem_keys_setFile (m : FileMap) (q v p : String) (h : p ∈ keysOf m) :
    p ∈ keysOf (setFile m q v) := by
  unfold setFile
  split_ifs with hq
  · rcases List.mem_map.mp h with ⟨e, he, hk⟩
    refine List.mem_map.mpr ⟨if e.1 == q then (q, v) else e, List.mem_map_of_mem _ he, ?_⟩
    by_cases hb : e.1 == q
    · simp only [hb, if_true]
      rw [← hk]
      exact (eq_of_beq hb).symm
    · simp only [hb, if_false]
      exact hk
  · unfold keysOf at *
    rw [List.map_append]
    exact List.mem_append_left _ h

theorem mem_keys_mergeBatch (m : FileMap) (l : List (String × String)) (p : String)
    (h : p ∈ keysOf m) : p ∈ keysOf (mergeBatch m l) := by
  induction l generalizing m with
  | nil => simpa [mergeBatch]
  | cons a t ih =>
      have h2 : p ∈ keysOf (setFile m a.1 a.2) := mem_keys_setFile m a.1 a.2 p h
      simpa [mergeBatch, List.foldl_cons] using ih (setFile m a.1 a.2) h2

theorem runRounds_rounds_le (respond : Nat → AgentState → AgentState)
    (n i : Nat) (st : AgentState) : (runRounds respond n i st).2 ≤ n := by
  induction n generalizing i st with
  | zero => simp [runRounds]
  | succ n ih =>
      unfold runRounds
      split_ifs
      · exact Nat.succ_le_succ (ih (i + 1) _)
      · exact Nat.zero_le _

/-! ## Claim C1 -/

/-- Claim C1 (amended): each Run persists at most one Message — never both a
RESULT and an ERROR; a successful Run persists exactly the one RESULT
Message and a failed Run only ERROR Messages; and exactly one Message is
persisted provided the outer handler's dedup query and insert do not throw
and no ERROR Message for the project exists within the last 60 seconds.
(The original claim's "never zero" fails: when a failure is reported
through the outer handler while a recent ERROR row exists, the dedup
suppresses the insert and the Run persists zero Messages.) -/
theorem c1_terminal_message (env : Env) (now : Int) (store : List Msg) :
    (codeAgentFunction env now store).newMsgs.length ≤ 1
    ∧ (retSuccess (codeAgentFunction env now store).ret = true →
        (codeAgentFunction env now store).newMsgs.map Msg.type = [MsgType.RESULT])
    ∧ (retSuccess (codeAgentFunction env now store).ret = false →
        ∀ m ∈ (codeAgentFunction env now store).newMsgs, m.type = MsgType.ERROR)
    ∧ (env.findFirstOk = true → env.saveErrorMsgOk = true →
        recentError store now = false →
        (codeAgentFunction env now store).newMsgs.length = 1) := by
  rw [codeAgentFunction_eq_runPath]
  cases hp : pathOf env with
  | success s f => refine ⟨?_, ?_, ?_, ?_⟩ <;> simp [runPath, retSuccess]
  | innerError => refine ⟨?_, ?_, ?_, ?_⟩ <;> simp [runPath, retSuccess]
  | outerFromInner =>
      simp only [runPath]
      refine ⟨outerCatch_len env now store _, ?_, ?_, ?_⟩
      · intro h
        rw [outerCatch_not_success env now store _] at h
        exact absurd h (by simp)
      · intro _
        exact outerCatch_types env now store _
      · intro hf hs hre
        exact outerCatch_len_one env now store _ hf hs hre
  | outerDirect =>
      simp only [runPath]
      refine ⟨outerCatch_len env now store _, ?_, ?_, ?_⟩
      · intro h
        rw [outerCatch_not_success env now store _] at h
        exact absurd h (by simp)
      · intro _
        exact outerCatch_types env now store _
      · intro hf hs hre
        exact outerCatch_len_one env now store _ hf hs hre

theorem c1_terminal_message_witness :
    (codeAgentFunction envSuccess 0 []).newMsgs.length = 1 :=
  (c1_terminal_message envSuccess 0 []).2.2.2 rfl rfl (by decide)

/-- Claim C1, counterexample to the statement as written: a Run whose agent
loop throws while the project already holds an ERROR Message from 30
seconds earlier reaches the outer handler, which dedups the insert: the Run
terminates normally (returns the structured failure object, no crash) yet
persists zero Messages. -/
theorem c1_zero_messages_counterexample :
    (codeAgentFunction envLoopThrows 30000 [Msg.mk MsgType.ERROR 0]).newMsgs = []
    ∧ (codeAgentFunction envLoopThrows 30000 [Msg.mk MsgType.ERROR 0]).ret
        = some (WfReturn.failure "boom") := by decide

/-! ## Claim C2 -/

/-- Claim C2 (amended): the 60-second de-duplication only protects the
outer exception handler.  If the second fault within the window is reported
through the outer handler, no further ERROR Message is persisted: the
project's ERROR count is unchanged (so exactly one ERROR remains when the
first fault persisted exactly one). -/
theorem c2_outer_dedup (env : Env) (now t1 : Int) (store : List Msg)
    (ho : reachesOuter env = true)
    (hm : Msg.mk MsgType.ERROR t1 ∈ store)
    (ht : now - 60000 ≤ t1) :
    (codeAgentFunction env now store).newMsgs = []
    ∧ errorCount (store ++ (codeAgentFunction env now store).newMsgs)
        = errorCount store := by
  have hre := recentError_of_mem store now t1 hm ht
  have hnil : (codeAgentFunction env now store).newMsgs = [] := by
    rw [codeAgentFunction_eq_runPath]
    unfold reachesOuter at ho
    cases hp : pathOf env
    all_goals rw [hp] at ho
    case success s f => simp at ho
    case innerError => simp at ho
    case outerFromInner =>
      simp only [runPath]
      exact outerCatch_newMsgs_nil env now store _ hre
    case outerDirect =>
      simp only [runPath]
      exact outerCatch_newMsgs_nil env now store _ hre
  refine ⟨hnil, ?_⟩
  rw [hnil, List.append_nil]

theorem c2_outer_dedup_witness :
    (codeAgentFunction envLoopThrows 30000 [Msg.mk MsgType.ERROR 0]).newMsgs = []
    ∧ errorCount ([Msg.mk MsgType.ERROR 0] ++
        (codeAgentFunction envLoopThrows 30000 [Msg.mk MsgType.ERROR 0]).newMsgs)
      = errorCount [Msg.mk MsgType.ERROR 0] :=
  c2_outer_dedup envLoopThrows 30000 0 [Msg.mk MsgType.ERROR 0]
    (by decide) (by decide) (by decide)

/-- Claim C2, counterexample to the statement as written: two Runs for the
same project fail via the inner completion-check path 30 seconds apart.
The save-error-result step persists unconditionally (it never consults the
dedup query), so the project ends up with two ERROR Messages, not one. -/
theorem c2_duplicate_errors_counterexample :
    errorCount ((codeAgentFunction envInnerFail 0 []).newMsgs ++
      (codeAgentFunction envInnerFail 30000
        ((codeAgentFunction envInnerFail 0 []).newMsgs)).newMsgs) = 2 := by decide

/-! ## Claim C3 -/

/-- Claim C3 (failing input): with prior files empty and the batch
[(a.ts, x), (b.ts, y)] where the sandbox write of b.ts throws, the step
evaluates to the error-tagged string — but the live state map, aliased as
updatedFiles and mutated in place, now holds the entry for a.ts: the files
map is NOT left unchanged, contradicting the claim (and the handler's own
commit-only-on-success shape, which assigns the returned map only when it
is an object). -/
theorem c3_state_mutated_on_failure :
    createOrUpdateFilesStep [] [("a.ts", "x"), ("b.ts", "y")] (some 1) "write failed"
      = ([("a.ts", "x")], Sum.inr "Error:write failed")
    ∧ (createOrUpdateFilesHandler ⟨"", []⟩ [("a.ts", "x"), ("b.ts", "y")] (some 1)
        "write failed").files = [("a.ts", "x")]
    ∧ [("a.ts", "x")] ≠ ([] : FileMap) := by decide

/-! ## Claim C4 -/

/-- Claim C4 (amended): every failed Run triggers at least one and at most
two refund attempts, each for GENERATION_COST (= 1) credits; exactly one
whenever the inner failure path's save-error-result step does not throw.
A successful Run attempts no refund.  (The original "exactly one" fails:
when the inner path's error persistence throws after the inner refund, the
outer handler refunds a second time.) -/
theorem c4_refund_attempts (env : Env) (now : Int) (store : List Msg) :
    (retSuccess (codeAgentFunction env now store).ret = false →
      1 ≤ (codeAgentFunction env now store).refunds.length
      ∧ (codeAgentFunction env now store).refunds.length ≤ 2
      ∧ (∀ a ∈ (codeAgentFunction env now store).refunds, a = GENERATION_COST)
      ∧ (env.saveErrorResultOk = true →
          (codeAgentFunction env now store).refunds.length = 1))
    ∧ (retSuccess (codeAgentFunction env now store).ret = true →
        (codeAgentFunction env now store).refunds = [])
    ∧ GENERATION_COST = 1 := by
  rw [codeAgentFunction_eq_runPath]
  cases hp : pathOf env with
  | success s f => simp [runPath, retSuccess, GENERATION_COST]
  | innerError => simp [runPath, retSuccess, GENERATION_COST]
  | outerFromInner =>
      have hser := pathOf_outerFromInner env hp
      simp only [runPath]
      simp [outerCatch_refunds, outerCatch_not_success, GENERATION_COST, hser]
  | outerDirect =>
      simp only [runPath]
      simp [outerCatch_refunds, outerCatch_not_success, GENERATION_COST]

theorem c4_refund_attempts_witness :
    1 ≤ (codeAgentFunction envInnerFail 0 []).refunds.length
    ∧ (codeAgentFunction envInnerFail 0 []).refunds.length ≤ 2
    ∧ (∀ a ∈ (codeAgentFunction envInnerFail 0 []).refunds, a = GENERATION_COST)
    ∧ (envInnerFail.saveErrorResultOk = true →
        (codeAgentFunction envInnerFail 0 []).refunds.length = 1) :=
  (c4_refund_attempts envInnerFail 0 []).1 (by decide)

/-- Claim C4, counterexample to the statement as written: a Run fails the
completion check (refund one), then its save-error-result insert throws and
the outer handler refunds again — two refund attempts for one failed Run. -/
theorem c4_double_refund_counterexample :
    (codeAgentFunction envInnerSaveFails 0 []).refunds
      = [GENERATION_COST, GENERATION_COST]
    ∧ retSuccess (codeAgentFunction envInnerSaveFails 0 []).ret = false := by decide

/-! ## Claim C5 -/

/-- Claim C5 (amended): provided the outer handler's own dedup query and
error insert do not throw, the workflow always returns a structured result
object (never throws at its public boundary), and any success object it
returns carries the preview URL built from the sandbox host, the generated
title, and exactly the summary and files of the agent run. -/
theorem c5_structured_result (env : Env) (now : Int) (store : List Msg)
    (hf : env.findFirstOk = true) (hs : env.saveErrorMsgOk = true) :
    (codeAgentFunction env now store).ret.isSome = true
    ∧ (∀ u t s f,
        (codeAgentFunction env now store).ret = some (WfReturn.success u t s f) →
        u = "https://" ++ env.host ∧ t = env.titleText ∧
        env.runResult = some (s, f) ∧ isError s f = false) := by
  rw [codeAgentFunction_eq_runPath]
  cases hp : pathOf env with
  | success s f =>
      have h2 := pathOf_success_runResult env s f hp
      simp only [runPath]
      refine ⟨rfl, ?_⟩
      intro u t s' f' h
      simp only [Option.some.injEq, WfReturn.success.injEq] at h
      obtain ⟨hu, ht2, hs2, hf2⟩ := h
      subst hu; subst ht2; subst hs2; subst hf2
      exact ⟨rfl, rfl, h2.1, h2.2⟩
  | innerError =>
      simp only [runPath]
      exact ⟨rfl, by intro u t s f h; simp at h⟩
  | outerFromInner =>
      simp only [runPath]
      refine ⟨outerCatch_ret_isSome env now store _ hf hs, ?_⟩
      intro u t s f h
      exact absurd h (outerCatch_no_success_payload env now store _ u t s f)
  | outerDirect =>
      simp only [runPath]
      refine ⟨outerCatch_ret_isSome env now store _ hf hs, ?_⟩
      intro u t s f h
      exact absurd h (outerCatch_no_success_payload env now store _ u t s f)

theorem c5_structured_result_witness :
    (codeAgentFunction envSuccess 0 []).ret.isSome = true :=
  (c5_structured_result envSuccess 0 [] rfl rfl).1

/-- Claim C5, counterexample to the statement as written: when the agent
loop throws and the outer handler's dedup query itself throws, the
exception propagates out of the catch block and the workflow throws at its
public boundary instead of returning a failure object. -/
theorem c5_throws_counterexample :
    (codeAgentFunction envOuterQueryFails 0 []).ret = none := by decide

/-! ## Claim C6 -/

/-- Claim C6: whenever the router inspects a state whose summary is
non-empty, the driver halts with zero further rounds, whatever the model
does and however many rounds remain in the budget. -/
theorem c6_no_round_after_summary (respond : Nat → AgentState → AgentState)
    (n i : Nat) (st : AgentState) (h : st.summary ≠ "") :
    runRounds respond n i st = (st, 0) := by
  have hb : (st.summary == "") = false := by
    cases hc : st.summary == ""
    · rfl
    · exact absurd (eq_of_beq hc) h
  cases n with
  | zero => rfl
  | succ n => simp [runRounds, hb]

theorem c6_no_round_after_summary_witness :
    runRounds (fun _ s => s) 3 0 (AgentState.mk "done" []) = (AgentState.mk "done" [], 0) :=
  c6_no_round_after_summary (fun _ s => s) 3 0 (AgentState.mk "done" []) (by decide)

/-! ## Claim C7 -/

/-- Claim C7: the agent loop executes at most 15 rounds regardless of the
model's behavior (the round function is arbitrary), including when the
summary is never set. -/
theorem c7_rounds_le_fifteen (respond : Nat → AgentState → AgentState)
    (st : AgentState) : (networkRun respond st).2 ≤ 15 := by
  have h := runRounds_rounds_le respond maxIterConfig 0 st
  simpa [networkRun, maxIterConfig] using h

/-! ## Claim C8 -/

/-- Claim C8: after the agent loop ends (it did not throw, and the earlier
steps succeeded), the Run takes a failure classification path — the inner
error persistence or the outer handler reached from it — exactly when the
summary is empty or the files map is empty. -/
theorem c8_failed_iff_missing (env : Env) (s : String) (f : FileMap)
    (h1 : env.getSandboxOk = true) (h2 : env.getMessagesOk = true)
    (h3 : env.runResult = some (s, f)) :
    (pathOf env = Path.innerError ∨ pathOf env = Path.outerFromInner)
      ↔ (s = "" ∨ f = []) := by
  have hiff : isError s f = true ↔ (s = "" ∨ f = []) := by
    simp [isError, List.length_eq_zero]
  rw [← hiff]
  simp only [pathOf, h1, h2, h3, if_true]
  cases hie : isError s f <;> split_ifs <;> simp_all

theorem c8_failed_iff_missing_witness :
    (pathOf envInnerFail = Path.innerError ∨ pathOf envInnerFail = Path.outerFromInner)
      ↔ (("" : String) = "" ∨ ([] : FileMap) = []) :=
  c8_failed_iff_missing envInnerFail "" [] (by decide) (by decide) (by decide)

/-! ## Claim C9 -/

/-- Claim C9: no tool invocation ever removes a path from the files map:
the terminal and readFiles handlers leave the state untouched, and
createOrUpdateFiles only inserts or overwrites entries — on both its
success and its exception path. -/
theorem c9_files_keys_monotone (st : AgentState) (c : ToolCall) (p : String)
    (h : p ∈ keysOf st.files) : p ∈ keysOf (applyTool st c).1.files := by
  cases c with
  | terminal cmd o => simpa [applyTool] using h
  | readFiles paths o => simpa [applyTool] using h
  | createOrUpdateFiles batch failAt e =>
      cases failAt with
      | none =>
          simpa [applyTool, createOrUpdateFilesHandler, createOrUpdateFilesStep]
            using mem_keys_mergeBatch st.files batch p h
      | some k =>
          simpa [applyTool, createOrUpdateFilesHandler, createOrUpdateFilesStep]
            using mem_keys_mergeBatch st.files (batch.take k) p h

theorem c9_files_keys_monotone_witness :
    "app/page.tsx" ∈ keysOf (applyTool (AgentState.mk "" [("app/page.tsx", "x")])
      (ToolCall.createOrUpdateFiles [("lib/utils.ts", "y"), ("app/page.tsx", "z")]
        (some 1) "boom")).1.files :=
  c9_files_keys_monotone (AgentState.mk "" [("app/page.tsx", "x")])
    (ToolCall.createOrUpdateFiles [("lib/utils.ts", "y"), ("app/page.tsx", "z")]
      (some 1) "boom") "app/page.tsx" (by decide)

/-! ## Claim C10 -/

/-- Claim C10: when the sandbox command resolves, the terminal tool returns
exactly the result's stdout — the output does not depend on the captured
stderr at all — and only on the exception path does the returned text embed
the captured stderr, formatted together with the captured stdout. -/
theorem c10_terminal_stdout_only (cmd so se1 se2 : String) (x1 x2 : Int)
    (e bo be : String) :
    terminalHandler cmd (TermOracle.ok (SandboxResult.mk so se1 x1)) = so
    ∧ terminalHandler cmd (TermOracle.ok (SandboxResult.mk so se1 x1))
        = terminalHandler cmd (TermOracle.ok (SandboxResult.mk so se2 x2))
    ∧ terminalHandler cmd (TermOracle.err e bo be)
        = "Command failed: " ++ e ++ " \nstdout: " ++ bo ++ "\nstderr: " ++ be :=
  ⟨rfl, rfl, rfl⟩

end Kindra
